import Mathlib

/-!
# Verification of the SOVA device controller (`sova.py`)

Shallow embedding of the device-control logic of `sova.py`
(class `SimpleDeviceUI`): the OUTPUT mode machine (`_output_pressed`,
`_do_kill`, `_start_gpio_cycle`, `_stop_gpio_cycle`, the cycle worker
thread), and the stage sequencer (`start_pressed`, `stop_pressed`,
`_start_auto_new`, `_start_manual_flow`, `_start_worker_for_current_stage`,
`_stage_worker`, `_on_paused`, `_on_stage_complete`, `_on_mode_change`).

Modelling conventions:
- Python floats are modelled as rationals (`ℚ`).  The loop iteration
  counts computed by the source as `int(GPIO_LOW_SEC / 0.1)` and
  `int(GPIO_HIGH_SEC / 0.1)` evaluate (in IEEE doubles as in exact
  rationals) to 50 and 30, which the embedding obtains by exact floor
  division.
- GUI handlers run on the Tk main thread; each handler call is one
  atomic event.  The two background threads (the GPIO cycle worker and
  the stage countdown worker) poll shared flags at a fine granularity;
  each poll granule is one atomic step, represented by an explicit
  program counter.  `time.sleep` is not modelled; a stage-worker tick
  carries the wall-clock delta `dt` measured by `time.time()` as an
  input.
- Several stage-worker threads can be alive at once (all execute the
  same loop over the same shared fields), so worker multiplicity is a
  natural number `workers`; a stage tick runs one of the alive workers.
- `self.after(0, cb)` callbacks (`_on_paused`, `_on_stage_complete`) are
  executed at the end of the worker step that schedules them.
- Widget state that the claims mention is kept (`mode_var`, the progress
  bar value); purely decorative labels/strings are omitted.
- LED writes are wrapped in `try/except` in the source and the
  exceptions are swallowed; the embedding models the successful write.
-/

namespace Sova

/-- Values of `self.current_stage` other than `None`
("auto", "foam", "inflate", "stabilize"). -/
inductive Stage
  | auto
  | foam
  | inflate
  | stabilize
  deriving DecidableEq, Repr

/-- Values of `self.manual_state`
("idle", "foam_done", "inflate_done", "manual_done"). -/
inductive ManualState
  | idle
  | foam_done
  | inflate_done
  | manual_done
  deriving DecidableEq, Repr

/-- Values of the run-mode selector ("Automatic" / "Manual"). -/
inductive RunMode
  | automatic
  | manual
  deriving DecidableEq, Repr

/-- Values of `self._gpio_mode` ("idle", "steady_high", "cycle"). -/
inductive GpioMode
  | idle
  | steady_high
  | cycle
  deriving DecidableEq, Repr

/-- Program counter of the GPIO cycle worker thread (`_cycle_worker`).
`exited` also stands for "no thread" (`self._gpio_cycle_thread is None`
or the thread is no longer alive).

- `entry`: thread started, about to execute `self.led.off()` before the
  initial LOW dwell (`start_with_low` is always `True` at the call site).
- `initLow i`: inside the initial LOW `for` loop, `i` iterations remain.
- `afterInitLow`: at the `if ... : led.off(); return` check that follows
  the initial LOW loop.
- `loopTop`: at the `while not stop and not killed` condition (followed
  by the mode recheck and `led.on()`).
- `highPoll i`: inside the HIGH-phase polling `for` loop.
- `afterHigh`: at the `if ... : break` check after the HIGH loop
  (falling through executes `led.off()` and enters the LOW loop).
- `lowPoll i`: inside the LOW-phase polling `for` loop.
-/
inductive CyclePC
  | exited
  | entry
  | initLow (i : Nat)
  | afterInitLow
  | loopTop
  | highPoll (i : Nat)
  | afterHigh
  | lowPoll (i : Nat)
  deriving DecidableEq, Repr

/-- The mutable state of `SimpleDeviceUI` that the control logic reads
and writes.  Leading underscores of the Python attribute names are
dropped (`_gpio_mode` ↦ `gpio_mode`, …).  `led` is the physical actuator
state (`True` = HIGH); `stop_evt` is `self._gpio_cycle_stop_evt`;
`cyclePc` is the cycle thread's position; `workers` counts alive stage
worker threads; `progress` is the progress-bar value. -/
structure State where
  killed : Bool
  running : Bool
  paused : Bool
  pause_flag : Bool
  current_stage : Option Stage
  stage_total : ℚ
  stage_remaining : ℚ
  manual_state : ManualState
  current_mode : RunMode
  mode_var : RunMode
  gpio_mode : GpioMode
  led : Bool
  stop_evt : Bool
  cyclePc : CyclePC
  workers : Nat
  progress : ℚ
  deriving DecidableEq, Repr

/-- `AUTO_TOTAL = 30.0` -/
def AUTO_TOTAL : ℚ := 30
/-- `MANUAL_FOAM = 5.0` -/
def MANUAL_FOAM : ℚ := 5
/-- `MANUAL_INFLATE = 20.0` -/
def MANUAL_INFLATE : ℚ := 20
/-- `MANUAL_STABILIZE = 20 * 60.0` -/
def MANUAL_STABILIZE : ℚ := 20 * 60
/-- `GPIO_HIGH_SEC = 3.0` -/
def GPIO_HIGH_SEC : ℚ := 3
/-- `GPIO_LOW_SEC = 5.0` -/
def GPIO_LOW_SEC : ℚ := 5
/-- the polling granularity `step = 0.1` of the cycle worker -/
def cycle_poll_step : ℚ := 1 / 10

/-- `int(GPIO_LOW_SEC / 0.1)`: iteration count of the LOW polling loops
(IEEE doubles give `5.0 / 0.1 = 50.0` exactly, so the truncation is 50,
agreeing with the exact rational value `GPIO_LOW_SEC / cycle_poll_step`). -/
def low_poll_count : Nat := 50

/-- `int(GPIO_HIGH_SEC / 0.1)`: iteration count of the HIGH polling loop
(IEEE doubles give `3.0 / 0.1 = 30.0` exactly, so the truncation is 30,
agreeing with the exact rational value `GPIO_HIGH_SEC / cycle_poll_step`). -/
def high_poll_count : Nat := 30

/-- The state after `__init__` / `_build_ui`: all flags clear, no stage,
`manual_state = "idle"`, `current_mode = "Manual"`, `mode_var` set to
"Manual", `_gpio_mode = 'idle'`, the LED forced LOW, the stop event
clear, no cycle thread, no worker, progress bar at 0. -/
def init : State :=
  { killed := false
    running := false
    paused := false
    pause_flag := false
    current_stage := none
    stage_total := 0
    stage_remaining := 0
    manual_state := ManualState.idle
    current_mode := RunMode.manual
    mode_var := RunMode.manual
    gpio_mode := GpioMode.idle
    led := false
    stop_evt := false
    cyclePc := CyclePC.exited
    workers := 0
    progress := 0 }

/-- `_stop_gpio_cycle`: set the stop event and force the LED off. -/
def stop_gpio_cycle (s : State) : State :=
  { s with stop_evt := true, led := false }

/-- `_set_steady_high`: stop any cycle thread, then turn the LED on. -/
def set_steady_high (s : State) : State :=
  { stop_gpio_cycle s with led := true }

/-- `_start_gpio_cycle` (always called with `start_with_low=True`): if a
cycle thread is already alive, return without doing anything; otherwise
clear the stop event and spawn the cycle worker thread. -/
def start_gpio_cycle (s : State) : State :=
  if s.cyclePc ≠ CyclePC.exited then s
  else { s with stop_evt := false, cyclePc := CyclePC.entry }

/-- `_output_pressed`: the OUTPUT button handler.  No-op when killed;
otherwise advances `_gpio_mode` along
idle → steady_high → cycle → steady_high (the source tests the mode
string with successive `if mode == …` blocks; the enum has exactly the
three values, so the last test is the final `else`). -/
def output_pressed (s : State) : State :=
  if s.killed then s
  else if s.gpio_mode = GpioMode.idle then
    { set_steady_high s with gpio_mode := GpioMode.steady_high }
  else if s.gpio_mode = GpioMode.steady_high then
    { start_gpio_cycle s with gpio_mode := GpioMode.cycle }
  else
    { set_steady_high (stop_gpio_cycle s) with
        gpio_mode := GpioMode.steady_high }

/-- `_do_kill`: the KILL button handler.  A second call returns at once;
the first call stops the timer flags, stops the cycle thread, forces the
LED LOW and resets the progress bar. -/
def do_kill (s : State) : State :=
  if s.killed then s
  else
    { stop_gpio_cycle
        { s with killed := true, running := false, paused := false,
                 pause_flag := false } with
        led := false, progress := 0 }

/-- `_on_mode_change(value)` as written in the source (the widget has
already stored `value` into `mode_var` when the callback runs): while
running or paused the selector is reverted to `current_mode`; otherwise
the mode is adopted and the stage state reset. -/
def on_mode_change (v : RunMode) (s : State) : State :=
  if s.running || s.paused then { s with mode_var := s.current_mode }
  else
    { s with current_mode := v, manual_state := ManualState.idle,
             current_stage := none, stage_total := 0,
             stage_remaining := 0, progress := 0 }

/-- `_start_worker_for_current_stage`: set the running flags and spawn a
stage worker thread. -/
def start_worker_for_current_stage (s : State) : State :=
  { s with running := true, paused := false, workers := s.workers + 1 }

/-- `_start_auto_new`: set up the single Automatic stage and spawn its
worker. -/
def start_auto_new (s : State) : State :=
  start_worker_for_current_stage
    { s with current_stage := some Stage.auto,
             stage_total := AUTO_TOTAL, stage_remaining := AUTO_TOTAL,
             progress := 0 }

/-- `_start_manual_flow`: the manual state machine at start time.  Only
`manual_state ∈ {"idle","foam_done"}` starts a stage; any other value
falls through without touching the state. -/
def start_manual_flow (s : State) : State :=
  if s.manual_state = ManualState.idle then
    start_worker_for_current_stage
      { s with current_stage := some Stage.foam,
               stage_total := MANUAL_FOAM,
               stage_remaining := MANUAL_FOAM, progress := 0 }
  else if s.manual_state = ManualState.foam_done then
    start_worker_for_current_stage
      { s with current_stage := some Stage.inflate,
               stage_total := MANUAL_INFLATE,
               stage_remaining := MANUAL_INFLATE, progress := 0 }
  else s

/-- `start_pressed`: the START button handler. -/
def start_pressed (s : State) : State :=
  if s.killed then s
  else if s.paused && s.current_stage ≠ none then
    start_worker_for_current_stage
      { s with paused := false, pause_flag := false }
  else if s.mode_var = RunMode.automatic then
    if s.running then s else start_auto_new s
  else start_manual_flow s

/-- `stop_pressed`: the STOP button handler; requests a pause when a
stage is running. -/
def stop_pressed (s : State) : State :=
  if s.killed then s
  else if s.running && s.current_stage ≠ none then
    { s with pause_flag := true }
  else s

/-- `_on_paused`: scheduled by the worker on the pause path; only
updates widgets (status text and buttons), so it is the identity on the
modelled fields. -/
def on_paused (s : State) : State := s

/-- `fraction_complete` as computed each tick by `_stage_worker`:
`(total - remaining) / total` with the `total = 0 → 1.0` guard. -/
def fraction_complete (s : State) : ℚ :=
  if s.stage_total > 0 then (s.stage_total - s.stage_remaining) / s.stage_total
  else 1

/-- `_on_stage_complete`: scheduled when the countdown reaches 0.
Returns at once when killed; otherwise sets the progress bar to 1.0 and
dispatches on the completed stage — completing `inflate` auto-chains
into the `stabilize` stage and spawns its worker. -/
def on_stage_complete (s : State) : State :=
  if s.killed then s
  else
    let s1 := { s with progress := 1 }
    if s1.current_stage = some Stage.auto then
      { s1 with current_stage := none }
    else if s1.current_stage = some Stage.foam then
      { s1 with manual_state := ManualState.foam_done,
                current_stage := none }
    else if s1.current_stage = some Stage.inflate then
      start_worker_for_current_stage
        { s1 with manual_state := ManualState.inflate_done,
                  current_stage := some Stage.stabilize,
                  stage_total := MANUAL_STABILIZE,
                  stage_remaining := MANUAL_STABILIZE, progress := 0 }
    else if s1.current_stage = some Stage.stabilize then
      { s1 with manual_state := ManualState.manual_done,
                current_stage := none }
    else s1

/-- One loop granule of `_stage_worker`, run by one alive worker thread
(`dt` is the wall-clock delta `now - last_time` of this tick).  Mirrors
the loop body order: the `while remaining > 0` condition, the killed
check, the pause check, then the tick; falling out of the loop runs the
completion path. -/
def stage_worker_step (dt : ℚ) (s : State) : State :=
  if s.workers = 0 then s
  else if s.stage_remaining > 0 then
    if s.killed then
      { s with running := false, workers := s.workers - 1 }
    else if s.pause_flag then
      on_paused
        { s with running := false, paused := true, pause_flag := false,
                 workers := s.workers - 1 }
    else
      let s1 := { s with
        stage_remaining := max 0 (s.stage_remaining - dt) }
      { s1 with progress := fraction_complete s1 }
  else
    on_stage_complete
      { s with running := false, paused := false,
               workers := s.workers - 1 }

/-- One poll granule of the GPIO cycle worker `_cycle_worker`. -/
def cycle_step (s : State) : State :=
  match s.cyclePc with
  | CyclePC.exited => s
  | CyclePC.entry =>
      { s with led := false, cyclePc := CyclePC.initLow low_poll_count }
  | CyclePC.initLow i =>
      if i = 0 then { s with cyclePc := CyclePC.afterInitLow }
      else if s.stop_evt || s.killed then
        { s with cyclePc := CyclePC.afterInitLow }
      else if s.gpio_mode ≠ GpioMode.cycle then
        { s with cyclePc := CyclePC.afterInitLow }
      else { s with cyclePc := CyclePC.initLow (i - 1) }
  | CyclePC.afterInitLow =>
      if s.stop_evt || s.killed then
        { s with led := false, cyclePc := CyclePC.exited }
      else { s with cyclePc := CyclePC.loopTop }
  | CyclePC.loopTop =>
      if s.stop_evt || s.killed then
        { s with led := false, cyclePc := CyclePC.exited }
      else if s.gpio_mode ≠ GpioMode.cycle then
        { s with led := false, cyclePc := CyclePC.exited }
      else { s with led := true, cyclePc := CyclePC.highPoll high_poll_count }
  | CyclePC.highPoll i =>
      if i = 0 then { s with cyclePc := CyclePC.afterHigh }
      else if s.stop_evt || s.killed then
        { s with cyclePc := CyclePC.afterHigh }
      else if s.gpio_mode ≠ GpioMode.cycle then
        { s with cyclePc := CyclePC.afterHigh }
      else { s with cyclePc := CyclePC.highPoll (i - 1) }
  | CyclePC.afterHigh =>
      if s.stop_evt || s.killed then
        { s with led := false, cyclePc := CyclePC.exited }
      else { s with led := false, cyclePc := CyclePC.lowPoll low_poll_count }
  | CyclePC.lowPoll i =>
      if i = 0 then { s with cyclePc := CyclePC.loopTop }
      else if s.stop_evt || s.killed then
        { s with cyclePc := CyclePC.loopTop }
      else if s.gpio_mode ≠ GpioMode.cycle then
        { s with cyclePc := CyclePC.loopTop }
      else { s with cyclePc := CyclePC.lowPoll (i - 1) }

/-- An atomic event of the whole program: a GUI handler invocation, one
cycle-worker poll granule, or one stage-worker tick with wall-clock
delta `dt`.  The mode-change event first stores the clicked value into
`mode_var` (the widget does this before invoking the callback). -/
inductive Event
  | toggle
  | start
  | stop
  | kill
  | modeChange (v : RunMode)
  | cycleTick
  | stageTick (dt : ℚ)

/-- Interpretation of one event. -/
def step : Event → State → State
  | Event.toggle => output_pressed
  | Event.start => start_pressed
  | Event.stop => stop_pressed
  | Event.kill => do_kill
  | Event.modeChange v => fun s => on_mode_change v { s with mode_var := v }
  | Event.cycleTick => cycle_step
  | Event.stageTick dt => stage_worker_step dt

/-- Run a list of events from a state. -/
def run (tr : List Event) (s : State) : State :=
  tr.foldl (fun s e => step e s) s

/-- Iterate the cycle worker `n` granules. -/
def cycle_iter : Nat → State → State
  | 0, s => s
  | n + 1, s => cycle_step (cycle_iter n s)

/-- Run a list of stage-worker ticks (wall-clock deltas) from a state. -/
def ticks_run (dts : List ℚ) (s : State) : State :=
  dts.foldl (fun s dt => stage_worker_step dt s) s

end Sova

namespace Sova

/-! ## Generic lemmas about `run` and the step functions -/

theorem run_nil (s : State) : run [] s = s := rfl

theorem run_cons (e : Event) (tr : List Event) (s : State) :
    run (e :: tr) s = run tr (step e s) := rfl

theorem run_append (tr1 tr2 : List Event) (s : State) :
    run (tr1 ++ tr2) s = run tr2 (run tr1 s) := by
  simp [run, List.foldl_append]

/-- Once `killed` is set and the LED is LOW, every single event keeps
`killed` set and the LED LOW: the GUI handlers all return at once (or,
for the mode-change callback, never touch the LED), the cycle worker in
a killed state only ever writes LOW, and the stage worker never touches
the LED. -/
theorem step_keeps_killed_low (e : Event) (s : State)
    (hk : s.killed = true) (hl : s.led = false) :
    (step e s).killed = true ∧ (step e s).led = false := by
  cases e with
  | toggle => simp [step, output_pressed, hk, hl]
  | start => simp [step, start_pressed, hk, hl]
  | stop => simp [step, stop_pressed, hk, hl]
  | kill => simp [step, do_kill, hk, hl]
  | modeChange v =>
      simp only [step, on_mode_change]
      split <;> simp [hk, hl]
  | cycleTick =>
      cases hc : s.cyclePc <;>
        simp only [step, cycle_step, hc, hk, hl] <;> simp [hk, hl]
  | stageTick dt =>
      simp only [step, stage_worker_step]
      split_ifs <;>
        simp_all [on_stage_complete, on_paused,
          start_worker_for_current_stage, fraction_complete, hk, hl]

/-- `run` preserves the killed-and-LOW configuration. -/
theorem run_keeps_killed_low (tr : List Event) (s : State)
    (hk : s.killed = true) (hl : s.led = false) :
    (run tr s).killed = true ∧ (run tr s).led = false := by
  induction tr generalizing s with
  | nil => exact ⟨hk, hl⟩
  | cons e tr ih =>
      rw [run_cons]
      exact ih _ (step_keeps_killed_low e s hk hl).1
        (step_keeps_killed_low e s hk hl).2

/-- In a killed state the OUTPUT, START, STOP and KILL handlers are
literal no-ops (they return before touching anything). -/
theorem killed_handlers_noop (s : State) (hk : s.killed = true) :
    output_pressed s = s ∧ start_pressed s = s ∧ stop_pressed s = s ∧
    do_kill s = s := by
  refine ⟨?_, ?_, ?_, ?_⟩ <;> simp [output_pressed, start_pressed,
    stop_pressed, do_kill, hk]

/-! ## C1 -/

/-- **C1.** After `kill()` is called once (from a not-yet-killed state),
the actuator is forced LOW, and along every subsequent event trace —
GUI handler calls, cycle-worker granules and stage-worker ticks in any
interleaving — the system stays killed and the actuator stays LOW; in
every such subsequent state `togglePressed()` and `startPressed()` are
no-ops (they start no stage and change no output mode — they change
nothing at all), and a second `kill()` call is a no-op. -/
theorem C1_kill_terminal_low (s : State) (h : s.killed = false) :
    (do_kill s).killed = true ∧ (do_kill s).led = false ∧
    ∀ tr : List Event,
      (run tr (do_kill s)).killed = true ∧
      (run tr (do_kill s)).led = false ∧
      output_pressed (run tr (do_kill s)) = run tr (do_kill s) ∧
      start_pressed (run tr (do_kill s)) = run tr (do_kill s) ∧
      do_kill (run tr (do_kill s)) = run tr (do_kill s) := by
  have hk : (do_kill s).killed = true := by
    simp [do_kill, h, stop_gpio_cycle]
  have hl : (do_kill s).led = false := by
    simp [do_kill, h, stop_gpio_cycle]
  refine ⟨hk, hl, fun tr => ?_⟩
  obtain ⟨hk2, hl2⟩ := run_keeps_killed_low tr _ hk hl
  obtain ⟨h1, h2, _, h4⟩ := killed_handlers_noop _ hk2
  exact ⟨hk2, hl2, h1, h2, h4⟩

/-- Witness for C1 at the initial state with the trace
`[toggle, start, cycleTick]`. -/
theorem C1_kill_terminal_low_witness :
    (do_kill init).killed = true ∧ (do_kill init).led = false ∧
    (run [Event.toggle, Event.start, Event.cycleTick]
        (do_kill init)).led = false ∧
    start_pressed (run [Event.toggle, Event.start, Event.cycleTick]
        (do_kill init)) =
      run [Event.toggle, Event.start, Event.cycleTick] (do_kill init) := by
  obtain ⟨h1, h2, h3⟩ := C1_kill_terminal_low init rfl
  obtain ⟨_, hl, _, hs, _⟩ := h3 [Event.toggle, Event.start, Event.cycleTick]
  exact ⟨h1, h2, hl, hs⟩

end Sova

namespace Sova

/-! ## C4 -/

/-- The successor function of the OUTPUT mode machine, read off the
three branches of `_output_pressed`. -/
def toggle_next : GpioMode → GpioMode
  | GpioMode.idle => GpioMode.steady_high
  | GpioMode.steady_high => GpioMode.cycle
  | GpioMode.cycle => GpioMode.steady_high

theorem output_pressed_gpio (s : State) (h : s.killed = false) :
    (output_pressed s).gpio_mode = toggle_next s.gpio_mode := by
  cases hg : s.gpio_mode <;>
    simp only [output_pressed, h, Bool.false_eq_true, if_false, hg,
      toggle_next, set_steady_high, stop_gpio_cycle, start_gpio_cycle,
      reduceCtorEq, reduceIte] <;>
    split_ifs <;> rfl

theorem output_pressed_killed (s : State) :
    (output_pressed s).killed = s.killed := by
  cases hk : s.killed with
  | true => simp [output_pressed, hk]
  | false =>
      cases hg : s.gpio_mode <;>
        simp only [output_pressed, hk, Bool.false_eq_true, if_false, hg,
          set_steady_high, stop_gpio_cycle, start_gpio_cycle,
          reduceCtorEq, reduceIte] <;>
        first
          | rfl
          | (split_ifs <;> first | rfl | exact hk)

/-- `n` OUTPUT presses from the initial state. -/
def toggles (n : Nat) : State := run (List.replicate n Event.toggle) init

theorem toggles_succ (n : Nat) :
    toggles (n + 1) = output_pressed (toggles n) := by
  unfold toggles run
  rw [List.replicate_succ' (n := n), List.foldl_append]
  rfl

theorem toggles_killed (n : Nat) : (toggles n).killed = false := by
  induction n with
  | zero => rfl
  | succ n ih => rw [toggles_succ, output_pressed_killed]; exact ih

/-- **C4.** For every sequence of `togglePressed()` presses starting
from the initial (Idle, unkilled) state, the output mode after `n ≥ 1`
presses is SteadyHigh when `n` is odd and Cycling when `n` is even —
i.e. the trajectory is Idle, SteadyHigh, Cycling, SteadyHigh, Cycling, …
with period 2 after the first press; moreover no `togglePressed()` call
from any unkilled state ever produces the Idle mode. -/
theorem C4_toggle_period_two :
    (∀ n : Nat, 1 ≤ n →
      (toggles n).gpio_mode =
        (if n % 2 = 1 then GpioMode.steady_high else GpioMode.cycle)) ∧
    (∀ s : State, s.killed = false →
      (output_pressed s).gpio_mode ≠ GpioMode.idle) := by
  constructor
  · intro n hn
    induction n with
    | zero => omega
    | succ n ih =>
        rcases Nat.eq_or_lt_of_le hn with h1 | h1
        · rw [← h1]; decide
        · have hn1 : 1 ≤ n := by omega
          rw [toggles_succ, output_pressed_gpio _ (toggles_killed n),
            ih hn1]
          rcases Nat.even_or_odd n with he | ho
          · have h2 : n % 2 = 0 := Nat.even_iff.mp he
            have h3 : (n + 1) % 2 = 1 := by omega
            simp [h2, h3, toggle_next]
          · have h2 : n % 2 = 1 := Nat.odd_iff.mp ho
            have h3 : (n + 1) % 2 = 0 := by omega
            simp [h2, h3, toggle_next]
  · intro s hs
    rw [output_pressed_gpio s hs]
    cases s.gpio_mode <;> simp [toggle_next]

/-- Witness for C4 at `n = 1`, `n = 2`, and a concrete unkilled state. -/
theorem C4_toggle_period_two_witness :
    (toggles 1).gpio_mode = GpioMode.steady_high ∧
    (toggles 2).gpio_mode = GpioMode.cycle ∧
    (output_pressed init).gpio_mode ≠ GpioMode.idle := by
  refine ⟨?_, ?_, C4_toggle_period_two.2 init rfl⟩
  · have h := C4_toggle_period_two.1 1 (by norm_num)
    simpa using h
  · have h := C4_toggle_period_two.1 2 (by norm_num)
    simpa using h

/-! ## C9 -/

/-- **C9.** Changing the run mode while `running` or `paused` is
rejected synchronously: the only effect of the mode-change event (the
widget stores the clicked value, then `_on_mode_change` runs) is that
the mode selector is put back to the previously active mode
`current_mode`; the current stage, `manual_state`, `stage_total`,
`stage_remaining`, the run flags and every other field are untouched. -/
theorem C9_mode_change_rejected (s : State) (v : RunMode)
    (h : s.running = true ∨ s.paused = true) :
    step (Event.modeChange v) s = { s with mode_var := s.current_mode } := by
  have hcond : (({ s with mode_var := v } : State).running ||
      ({ s with mode_var := v } : State).paused) = true := by
    rcases h with h | h <;> simp [h]
  simp only [step, on_mode_change, hcond, if_pos]

/-- Witness for C9: a running state; the event only reverts the
selector. -/
theorem C9_mode_change_rejected_witness :
    step (Event.modeChange RunMode.automatic)
        { init with running := true } =
      { init with running := true } := by
  have h := C9_mode_change_rejected { init with running := true }
    RunMode.automatic (Or.inl rfl)
  exact h

/-! ## C10 -/

/-- **C10.** Once `manual_state` is `inflate_done` or `manual_done` and
no stage is active, `startPressed()` in Manual mode is a literal no-op;
a mode-change event while neither running nor paused resets
`manual_state` to `idle` (and clears the stage fields), after which —
if the device is not killed and the clicked mode is Manual — a
`startPressed()` starts a fresh Foam stage. -/
theorem C10_manual_done_start_noop :
    (∀ s : State,
      (s.manual_state = ManualState.inflate_done ∨
        s.manual_state = ManualState.manual_done) →
      s.current_stage = none → s.mode_var = RunMode.manual →
      start_pressed s = s) ∧
    (∀ (s : State) (v : RunMode), s.running = false → s.paused = false →
      (step (Event.modeChange v) s).manual_state = ManualState.idle ∧
      (step (Event.modeChange v) s).current_mode = v ∧
      (step (Event.modeChange v) s).mode_var = v ∧
      (step (Event.modeChange v) s).current_stage = none) ∧
    (∀ s : State, s.running = false → s.paused = false →
      s.killed = false →
      (start_pressed (step (Event.modeChange RunMode.manual) s)).current_stage
          = some Stage.foam ∧
      (start_pressed (step (Event.modeChange RunMode.manual) s)).stage_total
          = MANUAL_FOAM ∧
      (start_pressed (step (Event.modeChange RunMode.manual) s)).stage_remaining
          = MANUAL_FOAM ∧
      (start_pressed (step (Event.modeChange RunMode.manual) s)).running
          = true) := by
  refine ⟨?_, ?_, ?_⟩
  · intro s hm hc hv
    cases hk : s.killed with
    | true => simp [start_pressed, hk]
    | false =>
        rcases hm with hm | hm <;>
          simp [start_pressed, start_manual_flow, hk, hc, hv, hm]
  · intro s v hr hp
    simp [step, on_mode_change, hr, hp]
  · intro s hr hp hk
    have hmc : step (Event.modeChange RunMode.manual) s =
        { s with current_mode := RunMode.manual,
                 mode_var := RunMode.manual,
                 manual_state := ManualState.idle, current_stage := none,
                 stage_total := 0, stage_remaining := 0, progress := 0 } := by
      simp [step, on_mode_change, hr, hp]
    rw [hmc]
    simp [start_pressed, start_manual_flow,
      start_worker_for_current_stage, hk, hp]

/-- Witness for C10 at concrete states. -/
theorem C10_manual_done_start_noop_witness :
    start_pressed { init with manual_state := ManualState.manual_done } =
        { init with manual_state := ManualState.manual_done } ∧
    (step (Event.modeChange RunMode.automatic)
        { init with manual_state := ManualState.inflate_done }).manual_state
        = ManualState.idle ∧
    (start_pressed (step (Event.modeChange RunMode.manual)
        { init with manual_state := ManualState.manual_done })).current_stage
        = some Stage.foam := by
  refine ⟨?_, ?_, ?_⟩
  · exact C10_manual_done_start_noop.1 _ (Or.inr rfl) rfl rfl
  · exact (C10_manual_done_start_noop.2.1 _ RunMode.automatic rfl rfl).1
  · exact (C10_manual_done_start_noop.2.2 _ rfl rfl rfl).1

end Sova

namespace Sova

/-! ## C2 -/

/-- **C2 is refuted by the code (code bug).**  Three OUTPUT presses
(Idle → SteadyHigh → Cycling → SteadyHigh) followed by the cancelled
cycle thread running to its exit leave the system in a *stable* state —
cycle thread exited, nothing pending, device not killed — whose output
mode is SteadyHigh while the actuator is LOW: the zombie cycle thread's
exit path (`led.off()` at the end of `_cycle_worker`) runs *after* the
toggle handler already set the LED HIGH, because `_output_pressed` never
joins the cancelled thread.  This contradicts the invariant that the
actuator equals the mode-implied value (HIGH in SteadyHigh) outside the
bounded cycling transition windows. -/
theorem C2_steady_high_actuator_low_bug :
    (run [Event.toggle, Event.toggle, Event.toggle,
        Event.cycleTick, Event.cycleTick, Event.cycleTick] init).gpio_mode
        = GpioMode.steady_high ∧
    (run [Event.toggle, Event.toggle, Event.toggle,
        Event.cycleTick, Event.cycleTick, Event.cycleTick] init).led
        = false ∧
    (run [Event.toggle, Event.toggle, Event.toggle,
        Event.cycleTick, Event.cycleTick, Event.cycleTick] init).cyclePc
        = CyclePC.exited ∧
    (run [Event.toggle, Event.toggle, Event.toggle,
        Event.cycleTick, Event.cycleTick, Event.cycleTick] init).killed
        = false := by
  decide

/-! ## C5 -/

/-- **C5 counterexample.**  In Manual mode `_start_manual_flow` has no
`running` guard: a second `startPressed()` while the Foam stage is
Running restarts the stage and spawns a second countdown worker —
`workers = 2` — and resets `stage_remaining` back to `MANUAL_FOAM`
(here, after a tick had brought it down to 3). -/
theorem C5_second_worker_counterexample :
    (run [Event.start, Event.start] init).workers = 2 ∧
    (run [Event.start, Event.start] init).running = true ∧
    (run [Event.start, Event.stageTick 2, Event.start] init).workers = 2 ∧
    (run [Event.start, Event.stageTick 2, Event.start]
        init).stage_remaining = MANUAL_FOAM := by
  refine ⟨by decide, by decide, ?_, ?_⟩ <;>
    simp [run, step, start_pressed, start_manual_flow,
      start_worker_for_current_stage, stage_worker_step,
      fraction_complete, on_paused, init, MANUAL_FOAM]

/-- **C5 (amended).**  `startPressed()` in Automatic mode while Running
is a no-op, so it never spawns a second worker; but in Manual mode
`startPressed()` is not guarded by the Running flag: whenever
`manual_state` still permits a start (`idle` here), it spawns a further
worker even while one is already alive.  The at-most-one-worker
invariant therefore holds only because the presentation layer disables
the START button while a stage is Running. -/
theorem C5_worker_guard_amended :
    (∀ s : State, s.killed = false → s.paused = false →
      s.running = true → s.mode_var = RunMode.automatic →
      start_pressed s = s) ∧
    (∀ s : State, s.killed = false → s.paused = false →
      s.mode_var = RunMode.manual → s.manual_state = ManualState.idle →
      (start_pressed s).workers = s.workers + 1) := by
  constructor
  · intro s hk hp hr hv
    simp [start_pressed, hk, hp, hr, hv]
  · intro s hk hp hv hm
    simp [start_pressed, start_manual_flow,
      start_worker_for_current_stage, hk, hp, hv, hm]

/-- Witness for the amended C5 at concrete states. -/
theorem C5_worker_guard_amended_witness :
    start_pressed
        { init with running := true, workers := 1,
                    current_stage := some Stage.auto,
                    mode_var := RunMode.automatic } =
      { init with running := true, workers := 1,
                  current_stage := some Stage.auto,
                  mode_var := RunMode.automatic } ∧
    (start_pressed
        { init with running := true, workers := 1,
                    current_stage := some Stage.foam }).workers = 2 := by
  constructor
  · exact C5_worker_guard_amended.1 _ rfl rfl rfl rfl
  · exact C5_worker_guard_amended.2 _ rfl rfl rfl rfl

/-! ## C6 -/

/-- **C6.**  For a Running stage with time left: `stopPressed()` only
raises the pause request (remaining, total and stage untouched); the
worker observes the request at its next granule and transitions to
Paused, again leaving `stage_remaining`, `stage_total` and
`current_stage` unchanged (in this tick-atomic model the remaining time
at pause equals its value at the `stopPressed()` call exactly, which is
"within one tick's drift"); a subsequent `startPressed()` resumes the
same stage with the same `stage_remaining` — not reset to the stage
total. -/
theorem C6_pause_resume_preserves_remaining (s : State) (st : Stage)
    (dt : ℚ) (hk : s.killed = false) (hr : s.running = true)
    (hst : s.current_stage = some st) (hrem : 0 < s.stage_remaining)
    (hw : s.workers ≠ 0) :
    (stop_pressed s).pause_flag = true ∧
    (stop_pressed s).stage_remaining = s.stage_remaining ∧
    (stop_pressed s).stage_total = s.stage_total ∧
    (stop_pressed s).current_stage = some st ∧
    (stop_pressed s).running = true ∧
    (step (Event.stageTick dt) (stop_pressed s)).paused = true ∧
    (step (Event.stageTick dt) (stop_pressed s)).running = false ∧
    (step (Event.stageTick dt) (stop_pressed s)).stage_remaining
        = s.stage_remaining ∧
    (step (Event.stageTick dt) (stop_pressed s)).stage_total
        = s.stage_total ∧
    (step (Event.stageTick dt) (stop_pressed s)).current_stage = some st ∧
    (start_pressed (step (Event.stageTick dt) (stop_pressed s))).running
        = true ∧
    (start_pressed (step (Event.stageTick dt) (stop_pressed s))).paused
        = false ∧
    (start_pressed (step (Event.stageTick dt)
        (stop_pressed s))).stage_remaining = s.stage_remaining ∧
    (start_pressed (step (Event.stageTick dt)
        (stop_pressed s))).stage_total = s.stage_total ∧
    (start_pressed (step (Event.stageTick dt)
        (stop_pressed s))).current_stage = some st ∧
    (start_pressed (step (Event.stageTick dt)
        (stop_pressed s))).workers = s.workers := by
  have e1 : stop_pressed s = { s with pause_flag := true } := by
    simp [stop_pressed, hk, hr, hst]
  have e2 : step (Event.stageTick dt) (stop_pressed s) =
      { s with running := false, paused := true, pause_flag := false,
               workers := s.workers - 1 } := by
    rw [e1]
    simp [step, stage_worker_step, on_paused, hk, hrem, hw]
  have e3 : start_pressed (step (Event.stageTick dt) (stop_pressed s)) =
      { s with running := true, paused := false, pause_flag := false,
               workers := s.workers - 1 + 1 } := by
    rw [e2]
    simp [start_pressed, start_worker_for_current_stage, hk, hst]
  rw [e3, e2, e1]
  refine ⟨rfl, rfl, rfl, hst, hr, rfl, rfl, rfl, rfl, hst, rfl, rfl, rfl,
    rfl, hst, ?_⟩
  show s.workers - 1 + 1 = s.workers
  omega

/-- Witness for C6: a Running Foam stage with 3 seconds left. -/
theorem C6_pause_resume_preserves_remaining_witness :
    (start_pressed (step (Event.stageTick 1) (stop_pressed
        { init with running := true, workers := 1,
                    current_stage := some Stage.foam,
                    stage_total := 5, stage_remaining := 3
        }))).stage_remaining = 3 ∧
    (start_pressed (step (Event.stageTick 1) (stop_pressed
        { init with running := true, workers := 1,
                    current_stage := some Stage.foam,
                    stage_total := 5, stage_remaining := 3
        }))).current_stage = some Stage.foam := by
  have h := C6_pause_resume_preserves_remaining
    { init with running := true, workers := 1,
                current_stage := some Stage.foam,
                stage_total := 5, stage_remaining := 3 }
    Stage.foam 1 rfl rfl rfl (by norm_num) (by decide)
  exact ⟨h.2.2.2.2.2.2.2.2.2.2.2.2.1, h.2.2.2.2.2.2.2.2.2.2.2.2.2.2.1⟩

/-! ## C7 -/

/-- **C7.**  When the Inflate stage's countdown is exhausted in an
unkilled state, the very next worker granule — with no intervening
`startPressed()` call — completes the stage: `manual_state` becomes
`inflate_done` and the Stabilize stage starts immediately with
`stage_total = MANUAL_STABILIZE = 1200` and
`stage_remaining = MANUAL_STABILIZE = 1200`, running with a worker. -/
theorem C7_inflate_auto_chains_stabilize (s : State) (dt : ℚ)
    (hk : s.killed = false) (hw : s.workers ≠ 0)
    (hst : s.current_stage = some Stage.inflate)
    (hrem : s.stage_remaining = 0) :
    (step (Event.stageTick dt) s).manual_state
        = ManualState.inflate_done ∧
    (step (Event.stageTick dt) s).current_stage = some Stage.stabilize ∧
    (step (Event.stageTick dt) s).stage_total = MANUAL_STABILIZE ∧
    (step (Event.stageTick dt) s).stage_remaining = MANUAL_STABILIZE ∧
    MANUAL_STABILIZE = 1200 ∧
    (step (Event.stageTick dt) s).running = true ∧
    (step (Event.stageTick dt) s).workers = s.workers := by
  have e : step (Event.stageTick dt) s =
      start_worker_for_current_stage
        { s with running := false, paused := false,
                 workers := s.workers - 1, progress := 0,
                 manual_state := ManualState.inflate_done,
                 current_stage := some Stage.stabilize,
                 stage_total := MANUAL_STABILIZE,
                 stage_remaining := MANUAL_STABILIZE } := by
    simp [step, stage_worker_step, on_stage_complete,
      start_worker_for_current_stage, hk, hw, hst, hrem]
  rw [e]
  refine ⟨rfl, rfl, rfl, rfl, by norm_num [MANUAL_STABILIZE], rfl, ?_⟩
  simp only [start_worker_for_current_stage]
  omega

/-- Witness for C7: the Inflate stage just exhausted. -/
theorem C7_inflate_auto_chains_stabilize_witness :
    (step (Event.stageTick 1)
        { init with running := true, workers := 1,
                    manual_state := ManualState.foam_done,
                    current_stage := some Stage.inflate,
                    stage_total := 20, stage_remaining := 0
        }).current_stage = some Stage.stabilize ∧
    (step (Event.stageTick 1)
        { init with running := true, workers := 1,
                    manual_state := ManualState.foam_done,
                    current_stage := some Stage.inflate,
                    stage_total := 20, stage_remaining := 0
        }).stage_remaining = MANUAL_STABILIZE := by
  have h := C7_inflate_auto_chains_stabilize
    { init with running := true, workers := 1,
                manual_state := ManualState.foam_done,
                current_stage := some Stage.inflate,
                stage_total := 20, stage_remaining := 0 }
    1 rfl (by decide) rfl rfl
  exact ⟨h.2.1, h.2.2.2.1⟩

end Sova

namespace Sova

/-! ## C3 -/

/-- **C3 counterexample.**  Four rapid OUTPUT presses (Idle → SteadyHigh
→ Cycling → SteadyHigh → Cycling) before the first spawned cycle thread
gets to run: at the fourth press `_start_gpio_cycle` sees the previous
(cancelled, not yet exited) thread still alive and returns without
starting a new task and without clearing the stop event.  Cycling mode
is therefore entered with the actuator HIGH and no live cycle pattern:
the old task then just runs to its exit (three granules) without any
LOW dwell of `GPIO_LOW_SEC` and without ever producing a HIGH phase,
leaving Cycling mode with no task at all. -/
theorem C3_stale_thread_counterexample :
    (run [Event.toggle, Event.toggle, Event.toggle, Event.toggle]
        init).gpio_mode = GpioMode.cycle ∧
    (run [Event.toggle, Event.toggle, Event.toggle, Event.toggle]
        init).led = true ∧
    (run [Event.toggle, Event.toggle, Event.toggle, Event.toggle]
        init).stop_evt = true ∧
    (run [Event.toggle, Event.toggle, Event.toggle, Event.toggle,
        Event.cycleTick, Event.cycleTick, Event.cycleTick]
        init).cyclePc = CyclePC.exited ∧
    (run [Event.toggle, Event.toggle, Event.toggle, Event.toggle,
        Event.cycleTick, Event.cycleTick, Event.cycleTick]
        init).gpio_mode = GpioMode.cycle ∧
    (run [Event.toggle, Event.toggle, Event.toggle, Event.toggle,
        Event.cycleTick, Event.cycleTick, Event.cycleTick]
        init).led = false := by
  decide

/-- The first `low_poll_count + 1` granules of a freshly spawned cycle
task (entry plus the whole initial LOW `for` loop), in an undisturbed
Cycling state: the LED stays LOW throughout. -/
theorem cycle_iter_dwell (s : State) (hk : s.killed = false)
    (hs : s.stop_evt = false) (hg : s.gpio_mode = GpioMode.cycle)
    (hp : s.cyclePc = CyclePC.entry) :
    ∀ n : Nat, 1 ≤ n → n ≤ low_poll_count + 1 →
      cycle_iter n s =
        { s with led := false,
                 cyclePc := CyclePC.initLow (low_poll_count + 1 - n) } := by
  intro n
  induction n with
  | zero => intro h1 _; omega
  | succ n ih =>
      intro h1 h2
      by_cases hn : n = 0
      · subst hn
        show cycle_step (cycle_iter 0 s) = _
        simp only [cycle_iter, cycle_step, hp]
        norm_num
      · have h1a : 1 ≤ n := by omega
        have h2a : n ≤ low_poll_count + 1 := by omega
        show cycle_step (cycle_iter n s) = _
        rw [ih h1a h2a]
        have hl : low_poll_count = 50 := rfl
        have hi : ¬ (low_poll_count + 1 - n = 0) := by omega
        have hsub : low_poll_count + 1 - n - 1
            = low_poll_count + 1 - (n + 1) := by omega
        simp only [cycle_step, hi, hs, hk, hg, Bool.or_self,
          Bool.false_eq_true, if_false, reduceCtorEq, reduceIte,
          ite_false, not_true_eq_false, hsub]
        simp

/-- The three granules that end the initial LOW dwell and switch the
task to its first HIGH phase. -/
theorem cycle_iter_first_high (s : State) (hk : s.killed = false)
    (hs : s.stop_evt = false) (hg : s.gpio_mode = GpioMode.cycle)
    (hp : s.cyclePc = CyclePC.entry) :
    cycle_iter (low_poll_count + 2) s =
      { s with led := false, cyclePc := CyclePC.afterInitLow } ∧
    cycle_iter (low_poll_count + 3) s =
      { s with led := false, cyclePc := CyclePC.loopTop } ∧
    cycle_iter (low_poll_count + 4) s =
      { s with led := true, cyclePc := CyclePC.highPoll high_poll_count } := by
  have e51 := cycle_iter_dwell s hk hs hg hp (low_poll_count + 1)
    (by omega) (by omega)
  have e52 : cycle_iter (low_poll_count + 2) s =
      { s with led := false, cyclePc := CyclePC.afterInitLow } := by
    show cycle_step (cycle_iter (low_poll_count + 1) s) = _
    rw [e51]
    simp [cycle_step]
  have e53 : cycle_iter (low_poll_count + 3) s =
      { s with led := false, cyclePc := CyclePC.loopTop } := by
    show cycle_step (cycle_iter (low_poll_count + 2) s) = _
    rw [e52]
    simp [cycle_step, hs, hk]
  have e54 : cycle_iter (low_poll_count + 4) s =
      { s with led := true, cyclePc := CyclePC.highPoll high_poll_count } := by
    show cycle_step (cycle_iter (low_poll_count + 3) s) = _
    rw [e53]
    simp [cycle_step, hs, hk, hg]
  exact ⟨e52, e53, e54⟩

/-- **C3 (amended).**  When Cycling is entered by `togglePressed()` and
the previous cycle task has already exited, a fresh task is spawned with
the stop event cleared; that task's first action forces the LED LOW and
it keeps the LED LOW for the entire initial dwell — `low_poll_count =
int(GPIO_LOW_SEC/0.1)` sleep granules of 0.1 s, i.e. `GPIO_LOW_SEC`
seconds — before the first HIGH phase begins; thereafter every loop
round holds HIGH for `high_poll_count` granules (`GPIO_HIGH_SEC`
seconds) and LOW for `low_poll_count` granules (`GPIO_LOW_SEC`
seconds); and on *every* exit of the task — cancellation during the
initial dwell or any later phase, kill, or mode change — the granule
that makes the task exit leaves the actuator LOW.  (If the previous
task is still alive the toggle switches the mode but starts no task —
see the counterexample.) -/
theorem C3_cycle_low_dwell_amended :
    (∀ s : State, s.killed = false → s.gpio_mode = GpioMode.steady_high →
      s.cyclePc = CyclePC.exited →
      output_pressed s =
        { s with stop_evt := false, cyclePc := CyclePC.entry,
                 gpio_mode := GpioMode.cycle }) ∧
    (∀ s : State, s.killed = false → s.stop_evt = false →
      s.gpio_mode = GpioMode.cycle → s.cyclePc = CyclePC.entry →
      (∀ n : Nat, 1 ≤ n → n ≤ low_poll_count + 3 →
        (cycle_iter n s).led = false) ∧
      cycle_iter (low_poll_count + 4) s =
        { s with led := true,
                 cyclePc := CyclePC.highPoll high_poll_count }) ∧
    (∀ s : State, s.killed = false → s.stop_evt = false →
      s.gpio_mode = GpioMode.cycle →
      (s.cyclePc = CyclePC.loopTop →
        cycle_step s =
          { s with led := true,
                   cyclePc := CyclePC.highPoll high_poll_count }) ∧
      (∀ i : Nat, s.cyclePc = CyclePC.highPoll (i + 1) →
        cycle_step s = { s with cyclePc := CyclePC.highPoll i }) ∧
      (s.cyclePc = CyclePC.highPoll 0 →
        cycle_step s = { s with cyclePc := CyclePC.afterHigh }) ∧
      (s.cyclePc = CyclePC.afterHigh →
        cycle_step s =
          { s with led := false,
                   cyclePc := CyclePC.lowPoll low_poll_count }) ∧
      (∀ i : Nat, s.cyclePc = CyclePC.lowPoll (i + 1) →
        cycle_step s = { s with cyclePc := CyclePC.lowPoll i }) ∧
      (s.cyclePc = CyclePC.lowPoll 0 →
        cycle_step s = { s with cyclePc := CyclePC.loopTop })) ∧
    (∀ s : State, s.cyclePc ≠ CyclePC.exited →
      (cycle_step s).cyclePc = CyclePC.exited →
      (cycle_step s).led = false) := by
  refine ⟨?_, ?_, ?_, ?_⟩
  · intro s hk hg hp
    simp [output_pressed, start_gpio_cycle, hk, hg, hp]
  · intro s hk hs hg hp
    constructor
    · intro n h1 h2
      have hl : low_poll_count = 50 := rfl
      have hcase : n ≤ low_poll_count + 1 ∨ n = low_poll_count + 2 ∨
          n = low_poll_count + 3 := by omega
      rcases hcase with hc | hc | hc
      · rw [cycle_iter_dwell s hk hs hg hp n h1 hc]
      · rw [hc, (cycle_iter_first_high s hk hs hg hp).1]
      · rw [hc, (cycle_iter_first_high s hk hs hg hp).2.1]
    · exact (cycle_iter_first_high s hk hs hg hp).2.2
  · intro s hk hs hg
    refine ⟨?_, ?_, ?_, ?_, ?_, ?_⟩
    · intro hp; simp [cycle_step, hp, hk, hs, hg]
    · intro i hp; simp [cycle_step, hp, hk, hs, hg]
    · intro hp; simp [cycle_step, hp]
    · intro hp; simp [cycle_step, hp, hk, hs]
    · intro i hp; simp [cycle_step, hp, hk, hs, hg]
    · intro hp; simp [cycle_step, hp]
  · intro s hne hex
    cases hc : s.cyclePc <;> rw [hc] at hne <;>
      simp only [cycle_step, hc] at hex ⊢ <;>
      first
        | (exact absurd rfl hne)
        | (split_ifs at hex ⊢ <;> simp_all)

/-- Witness for the amended C3 at concrete states: a fresh entry into
Cycling, the LED after the full dwell and at the first HIGH granule,
and one concrete cancelled exit that ends LOW. -/
theorem C3_cycle_low_dwell_amended_witness :
    (output_pressed
        { init with gpio_mode := GpioMode.steady_high }).cyclePc
        = CyclePC.entry ∧
    (cycle_iter 53
        { init with gpio_mode := GpioMode.cycle,
                    cyclePc := CyclePC.entry }).led = false ∧
    (cycle_iter 54
        { init with gpio_mode := GpioMode.cycle,
                    cyclePc := CyclePC.entry }).led = true ∧
    (cycle_step
        { init with gpio_mode := GpioMode.cycle, stop_evt := true,
                    cyclePc := CyclePC.afterHigh, led := true }).led
        = false := by
  have h1 := C3_cycle_low_dwell_amended.1
    { init with gpio_mode := GpioMode.steady_high } rfl rfl rfl
  have h2 := C3_cycle_low_dwell_amended.2.1
    { init with gpio_mode := GpioMode.cycle, cyclePc := CyclePC.entry }
    rfl rfl rfl rfl
  have h4 := C3_cycle_low_dwell_amended.2.2.2
    { init with gpio_mode := GpioMode.cycle, stop_evt := true,
                cyclePc := CyclePC.afterHigh, led := true }
    (by decide) (by decide)
  refine ⟨by rw [h1], ?_, ?_, h4⟩
  · have := h2.1 53 (by norm_num) (by norm_num [low_poll_count])
    exact this
  · rw [show (54 : Nat) = low_poll_count + 4 from rfl, h2.2]

end Sova

namespace Sova

/-! ## C8 -/

/-- The state after selecting Automatic and pressing START from the
initial state. -/
def autoS0 : State :=
  run [Event.modeChange RunMode.automatic, Event.start] init

/-- Inductive invariant of an Automatic run that is never paused or
killed: the device is unkilled with no pending pause request, the stage
total stays `AUTO_TOTAL`, the stage is the Auto stage or already
completed, the countdown is nonnegative, and once no worker is alive
the countdown has reached zero. -/
def auto_inv (s : State) : Prop :=
  s.killed = false ∧ s.pause_flag = false ∧ s.stage_total = AUTO_TOTAL ∧
  (s.current_stage = some Stage.auto ∨ s.current_stage = none) ∧
  0 ≤ s.stage_remaining ∧ (s.workers = 0 → s.stage_remaining = 0)

theorem auto_inv_autoS0 : auto_inv autoS0 := by
  have e : autoS0 =
      { init with current_mode := RunMode.automatic,
                  mode_var := RunMode.automatic,
                  current_stage := some Stage.auto,
                  stage_total := AUTO_TOTAL, stage_remaining := AUTO_TOTAL,
                  running := true, workers := 1 } := rfl
  rw [e]
  refine ⟨rfl, rfl, rfl, Or.inl rfl, ?_, ?_⟩
  · norm_num [AUTO_TOTAL]
  · intro h; exact absurd h one_ne_zero

theorem autoS0_fields :
    autoS0.stage_remaining = AUTO_TOTAL ∧
    autoS0.stage_total = AUTO_TOTAL ∧ autoS0.running = true := ⟨rfl, rfl, rfl⟩

/-- One unpaused, unkilled Automatic tick: the countdown drops to at
most `max 0 (remaining - dt)` and the invariant is preserved. -/
theorem auto_tick_bound (s : State) (dt : ℚ) (hinv : auto_inv s)
    (hdt : 0 ≤ dt) :
    (stage_worker_step dt s).stage_remaining
        ≤ max 0 (s.stage_remaining - dt) ∧
    auto_inv (stage_worker_step dt s) := by
  obtain ⟨hk, hpf, htot, hstage, hrem, hwz⟩ := hinv
  by_cases hw : s.workers = 0
  · have hr0 : s.stage_remaining = 0 := hwz hw
    simp only [stage_worker_step, hw, if_pos]
    exact ⟨by rw [hr0]; exact le_max_left 0 _,
      hk, hpf, htot, hstage, hrem, hwz⟩
  · by_cases hpos : s.stage_remaining > 0
    · have e : stage_worker_step dt s =
          { s with stage_remaining := max 0 (s.stage_remaining - dt),
                   progress := fraction_complete { s with stage_remaining := max 0 (s.stage_remaining - dt) } } := by
        simp [stage_worker_step, hw, hpos, hk, hpf]
      rw [e]
      refine ⟨le_rfl, hk, hpf, htot, hstage, le_max_left 0 _, ?_⟩
      intro h; exact absurd h hw
    · have hr0 : s.stage_remaining = 0 := le_antisymm (not_lt.mp hpos) hrem
      rcases hstage with hst | hst
      · have e : stage_worker_step dt s =
            { s with running := false, paused := false,
                     workers := s.workers - 1, progress := 1,
                     current_stage := none } := by
          simp [stage_worker_step, on_stage_complete, hw, hpos, hk, hst]
        rw [e]
        exact ⟨by rw [hr0]; exact le_max_left 0 _,
          hk, hpf, htot, Or.inr rfl, hrem, fun _ => hr0⟩
      · have e : stage_worker_step dt s =
            { s with running := false, paused := false,
                     workers := s.workers - 1, progress := 1 } := by
          simp [stage_worker_step, on_stage_complete, hw, hpos, hk, hst]
        rw [e]
        exact ⟨by rw [hr0]; exact le_max_left 0 _,
          hk, hpf, htot, Or.inr hst, hrem, fun _ => hr0⟩

theorem max_zero_sub_mono {a b : ℚ} (hb : 0 ≤ b) :
    max 0 (max 0 a - b) ≤ max 0 (a - b) := by
  rcases le_or_lt 0 a with ha | ha
  · rw [max_eq_right ha]
  · rw [max_eq_left (le_of_lt ha)]
    have : 0 - b ≤ 0 := by linarith
    rw [max_eq_left this]
    exact le_max_left 0 _

/-- Folding any list of nonnegative ticks preserves the invariant and
bounds the countdown by `max 0 (remaining - sum of ticks)`. -/
theorem auto_ticks_bound :
    ∀ (dts : List ℚ) (s : State), auto_inv s → (∀ d ∈ dts, 0 ≤ d) →
      auto_inv (ticks_run dts s) ∧
      (ticks_run dts s).stage_remaining
          ≤ max 0 (s.stage_remaining - dts.sum) := by
  intro dts
  induction dts with
  | nil =>
      intro s hinv _
      refine ⟨hinv, ?_⟩
      rw [List.sum_nil, sub_zero]
      exact le_max_right 0 _
  | cons d ds ih =>
      intro s hinv hnn
      have hd : 0 ≤ d := hnn d (List.mem_cons_self d ds)
      have hds : ∀ x ∈ ds, 0 ≤ x := fun x hx => hnn x (List.mem_cons_of_mem d hx)
      have hds_sum : 0 ≤ ds.sum := List.sum_nonneg hds
      have htick := auto_tick_bound s d hinv hd
      have hrun : ticks_run (d :: ds) s = ticks_run ds (stage_worker_step d s) := rfl
      have hih := ih (stage_worker_step d s) htick.2 hds
      refine ⟨by rw [hrun]; exact hih.1, ?_⟩
      rw [hrun, List.sum_cons]
      calc (ticks_run ds (stage_worker_step d s)).stage_remaining
          ≤ max 0 ((stage_worker_step d s).stage_remaining - ds.sum) := hih.2
        _ ≤ max 0 (max 0 (s.stage_remaining - d) - ds.sum) := by
            apply max_le_max le_rfl
            exact sub_le_sub_right htick.1 ds.sum
        _ ≤ max 0 (s.stage_remaining - d - ds.sum) := max_zero_sub_mono hds_sum
        _ = max 0 (s.stage_remaining - (d + ds.sum)) := by ring_nf

/-- The completion granule of an Automatic run: once the countdown is 0
and a worker is alive, the next granule runs `_on_stage_complete`, which
sets the progress bar to exactly 1. -/
theorem auto_complete_progress (s : State) (dt : ℚ) (hinv : auto_inv s)
    (hr0 : s.stage_remaining = 0) (hw : s.workers ≠ 0) :
    (stage_worker_step dt s).progress = 1 := by
  obtain ⟨hk, hpf, htot, hstage, hrem, hwz⟩ := hinv
  have hpos : ¬ s.stage_remaining > 0 := by rw [hr0]; exact lt_irrefl 0
  rcases hstage with hst | hst <;>
    simp [stage_worker_step, on_stage_complete, hw, hpos, hk, hst]

/-- **C8.**  The Automatic run started from the initial state has
`stage_remaining = stage_total = AUTO_TOTAL = 30` and is Running; along
every sequence of worker ticks with nonnegative wall-clock deltas (no
pause, no kill): the countdown stays nonnegative, each further tick is
non-increasing, once the accumulated wall-clock time reaches
`AUTO_TOTAL` the countdown is exactly 0, at that point the fraction
`(total - remaining)/total` computed by the worker equals exactly 1,
and the completion granule sets the progress bar to exactly 1. -/
theorem C8_auto_run_monotone_complete :
    autoS0.stage_remaining = AUTO_TOTAL ∧
    autoS0.stage_total = AUTO_TOTAL ∧
    autoS0.running = true ∧ AUTO_TOTAL = 30 ∧
    ∀ dts : List ℚ, (∀ d ∈ dts, 0 ≤ d) →
      0 ≤ (ticks_run dts autoS0).stage_remaining ∧
      (∀ dt : ℚ, 0 ≤ dt →
        (stage_worker_step dt (ticks_run dts autoS0)).stage_remaining
          ≤ (ticks_run dts autoS0).stage_remaining) ∧
      (AUTO_TOTAL ≤ dts.sum →
        (ticks_run dts autoS0).stage_remaining = 0) ∧
      ((ticks_run dts autoS0).stage_remaining = 0 →
        fraction_complete (ticks_run dts autoS0) = 1) ∧
      ((ticks_run dts autoS0).stage_remaining = 0 →
        (ticks_run dts autoS0).workers ≠ 0 → ∀ dt : ℚ,
        (stage_worker_step dt (ticks_run dts autoS0)).progress = 1) := by
  refine ⟨rfl, rfl, rfl, rfl, ?_⟩
  intro dts hnn
  obtain ⟨hinv, hbound⟩ := auto_ticks_bound dts autoS0 auto_inv_autoS0 hnn
  obtain ⟨hk, hpf, htot, hstage, hrem, hwz⟩ := hinv
  refine ⟨hrem, ?_, ?_, ?_, ?_⟩
  · intro dt hdt
    have h := (auto_tick_bound (ticks_run dts autoS0) dt
      ⟨hk, hpf, htot, hstage, hrem, hwz⟩ hdt).1
    calc (stage_worker_step dt (ticks_run dts autoS0)).stage_remaining
        ≤ max 0 ((ticks_run dts autoS0).stage_remaining - dt) := h
      _ ≤ max 0 (ticks_run dts autoS0).stage_remaining := by
          apply max_le_max le_rfl
          linarith
      _ = (ticks_run dts autoS0).stage_remaining := max_eq_right hrem
  · intro hsum
    have h1 : autoS0.stage_remaining - dts.sum ≤ 0 := by
      have : autoS0.stage_remaining = AUTO_TOTAL := rfl
      rw [this]; linarith
    have h2 : max 0 (autoS0.stage_remaining - dts.sum) = 0 := max_eq_left h1
    rw [h2] at hbound
    exact le_antisymm hbound hrem
  · intro hr0
    rw [fraction_complete, htot, hr0, if_pos (by norm_num [AUTO_TOTAL])]
    norm_num [AUTO_TOTAL]
  · intro hr0 hw dt
    exact auto_complete_progress (ticks_run dts autoS0) dt
      ⟨hk, hpf, htot, hstage, hrem, hwz⟩ hr0 hw

/-- Witness for C8: the single tick `dt = 30` drives the countdown from
30 to exactly 0, at which point the worker's fraction is exactly 1. -/
theorem C8_auto_run_monotone_complete_witness :
    (ticks_run [(30 : ℚ)] autoS0).stage_remaining = 0 ∧
    fraction_complete (ticks_run [(30 : ℚ)] autoS0) = 1 := by
  have hnn : ∀ d ∈ [(30 : ℚ)], 0 ≤ d := by
    intro d hd
    simp at hd
    rw [hd]
    norm_num
  have h := C8_auto_run_monotone_complete.2.2.2.2 [(30 : ℚ)] hnn
  have hsum : AUTO_TOTAL ≤ [(30 : ℚ)].sum := by
    norm_num [AUTO_TOTAL]
  have hr0 := h.2.2.1 hsum
  exact ⟨hr0, h.2.2.2.1 hr0⟩

end Sova
